import Mathlib

/-
Shallow embedding of the retrieval-augmented chat pipeline of src/app.py
(E.R.I.K. study/chat assistant).  Text is modelled as a list of characters;
external collaborators (the duckduckgo search library, the HTTP transport,
the HTML extractor, the translation pipelines and the three generation
backends) are oracle parameters; a Python exception raised by an external
call is modelled as the error case of an Except value or as a distinguished
event/outcome constructor.  Every function below is translated from the
corresponding Python function of src/app.py.
-/

namespace Erik

/-- Python strings, modelled as lists of characters. -/
abbrev Str := List Char

/-- Coerce a Lean string literal to the character-list model. -/
def lit (s : String) : Str := s.data

/- ------------------------------------------------------------------
   Whitespace handling: Python re.sub(\s+, " ", text) and str.strip().
   ------------------------------------------------------------------ -/

/-- Code points matched by a Python unicode whitespace class. -/
def pyWsCodes : List Nat :=
  [9, 10, 11, 12, 13, 28, 29, 30, 31, 32, 133, 160, 5760,
   8192, 8193, 8194, 8195, 8196, 8197, 8198, 8199, 8200, 8201, 8202,
   8232, 8233, 8239, 8287, 12288]

/-- Whether a character is whitespace for re \s and str.strip. -/
def isPyWs (c : Char) : Bool := pyWsCodes.contains c.toNat

/-- Worker for collapseWs; the flag records whether the previous input
character was whitespace (so the current run is already replaced). -/
def collapseWsAux : Bool → Str → Str
  | _, [] => []
  | prev, c :: rest =>
    if isPyWs c then
      if prev then collapseWsAux true rest
      else ' ' :: collapseWsAux true rest
    else c :: collapseWsAux false rest

/-- re.sub(r"\s+", " ", text): each maximal whitespace run becomes one space. -/
def collapseWs (s : Str) : Str := collapseWsAux false s

/-- str.strip(): drop leading and trailing whitespace. -/
def stripPy (s : Str) : Str :=
  ((s.dropWhile isPyWs).reverse.dropWhile isPyWs).reverse

/-- No two adjacent characters are both whitespace. -/
def noWsRun : Str → Bool
  | [] => true
  | [_] => true
  | a :: b :: rest => (!(isPyWs a && isPyWs b)) && noWsRun (b :: rest)

/-- The first character, if any, is not whitespace. -/
def headNotWs : Str → Bool
  | [] => true
  | c :: _ => !(isPyWs c)

/- ------------------------------------------------------------------
   ddg_search (src/app.py lines 126-141).
   ------------------------------------------------------------------ -/

/-- A raw record yielded by the duckduckgo search iterator; each field is
optional because ddg_search reads it with dict.get and a default. -/
structure RawHit where
  title : Option Str
  href : Option Str
  body : Option Str
  source : Option Str
deriving DecidableEq

/-- The dict appended by ddg_search for one raw record. -/
structure SearchResult where
  title : Str
  href : Str
  snippet : Str
  source : Str
deriving DecidableEq

/-- results.append of ddg_search: r.get with default empty string. -/
def mkResult (r : RawHit) : SearchResult :=
  { title := r.title.getD [], href := r.href.getD [],
    snippet := r.body.getD [], source := r.source.getD [] }

/-- One step of the provider iterator: either it yields a record or it
raises an exception (quota, network, parse). -/
inductive DDGEvent where
  | item : RawHit → DDGEvent
  | raise : DDGEvent
deriving DecidableEq

/-- The for-loop of ddg_search inside its try block: append one result per
yielded record; a raised exception hits the bare except and the results
accumulated so far are returned. -/
def ddgLoop : List DDGEvent → List SearchResult
  | [] => []
  | DDGEvent.item r :: rest => mkResult r :: ddgLoop rest
  | DDGEvent.raise :: _ => []

/-- ddg_search: empty list when the DDGS library is unavailable, else the
loop over the provider's event stream, never propagating an exception. -/
def ddg_search (ddgsAvail : Bool) (events : List DDGEvent) : List SearchResult :=
  if ddgsAvail then ddgLoop events else []

/-- The raw records the provider yields strictly before its first raise. -/
def itemsBeforeRaise : List DDGEvent → List RawHit
  | [] => []
  | DDGEvent.item r :: rest => r :: itemsBeforeRaise rest
  | DDGEvent.raise :: _ => []

/- ------------------------------------------------------------------
   fetch_page_text (src/app.py lines 143-159).
   ------------------------------------------------------------------ -/

/-- Outcome of requests.get: a status code with a body, or a raised
network exception. -/
inductive HttpResult where
  | success : Nat → Str → HttpResult
  | raise : HttpResult

/-- fetch_page_text over an HTML-to-text extractor oracle (BeautifulSoup
or the regex fallback); none models an extraction exception.  Non-200
status, network exception and extraction exception all return the empty
string; on success the text is whitespace-collapsed, stripped and
truncated to 8000 characters. -/
def fetch_page_text (extract : Str → Option Str) (resp : HttpResult) : Str :=
  match resp with
  | HttpResult.raise => []
  | HttpResult.success status body =>
    if status = 200 then
      match extract body with
      | none => []
      | some text => List.take 8000 (stripPy (collapseWs text))
    else []

/- ------------------------------------------------------------------
   build_retrieval_context (src/app.py lines 161-180).
   ------------------------------------------------------------------ -/

/-- page_excerpt = page_text[:1200]. -/
def pageExcerptOf (page_text : Str) : Str := List.take 1200 page_text

/-- The chunk appended for a hit whose page fetch produced text. -/
def excerptChunk (h : SearchResult) (page_text : Str) : Str :=
  lit "Title: " ++ (if h.title = [] then h.href else h.title) ++
  lit "\nURL: " ++ h.href ++
  lit "\nSnippet: " ++ h.snippet ++
  lit "\nPage excerpt: " ++ pageExcerptOf page_text

/-- The snippet-only chunk appended by the fallback loop. -/
def fallbackChunk (h : SearchResult) : Str :=
  lit "Title: " ++ h.title ++ lit "\nURL: " ++ h.href ++
  lit "\nSnippet: " ++ h.snippet

/-- The first for-loop of build_retrieval_context: skip hits with an empty
URL, skip hits whose fetch yields empty text, otherwise append a chunk. -/
def fetchLoop (fetch : Str → Str) : List SearchResult → List Str
  | [] => []
  | h :: rest =>
    if h.href = [] then fetchLoop fetch rest
    else if fetch h.href = [] then fetchLoop fetch rest
    else excerptChunk h (fetch h.href) :: fetchLoop fetch rest

/-- "\n\n".join(chunks). -/
def joinBlank (chunks : List Str) : Str := List.intercalate (lit "\n\n") chunks

/-- build_retrieval_context over the provider and fetcher oracles. -/
def build_retrieval_context (ddgsAvail : Bool) (events : List DDGEvent)
    (fetch : Str → Str) : Str :=
  let hits := ddg_search ddgsAvail events
  let chunks := fetchLoop fetch hits
  let chunks2 := if chunks = [] ∧ hits ≠ [] then hits.map fallbackChunk else chunks
  joinBlank chunks2

/- ------------------------------------------------------------------
   build_prompt (src/app.py lines 185-200).
   ------------------------------------------------------------------ -/

/-- The fixed system preamble of build_prompt. -/
def sysPreamble : Str :=
  lit "You are E.R.I.K., a helpful, concise assistant. Answer accurately. If you used web results, cite them inline as [Source: URL]. If question is in Bangla, answer in Bangla; otherwise answer in the user's language. For math or steps, be clear and structured."

/-- The notice emitted when no retrieval context exists. -/
def noticeLine : Str := lit "No external web info was fetched for this question.\n"

/-- The context block: the labeled web-information section when retrieved
text is non-empty, else the one-line notice. -/
def contextBlock (retrieved : Str) : Str :=
  if retrieved = [] then noticeLine
  else
    lit "Relevant web information (may be partial; verify consistency):\n" ++
    retrieved ++ lit "\n" ++
    lit "When you use any line from above, add [Source: URL] after the sentence.\n"

/-- build_prompt: preamble, context-or-notice, question, answer cue. -/
def build_prompt (user_query retrieved : Str) : Str :=
  sysPreamble ++ lit "\n\n" ++ contextBlock retrieved ++
  lit "\nUser question:\n" ++ user_query ++ lit "\n\nAssistant answer:"

/- ------------------------------------------------------------------
   Generators per backend (src/app.py lines 205-235) and loaders.
   ------------------------------------------------------------------ -/

/-- An external text-to-text call that may raise, carrying a message. -/
abbrev Pipe := Str → Except Str Str

/-- RuntimeError message of load_ollama_model when ollama is missing. -/
def msgOllamaMissing : Str :=
  lit "ollama python package not installed. `pip install ollama` and install the Ollama app."

/-- RuntimeError message of generate_with_ollama when ollama is missing. -/
def msgOllamaUnavailable : Str := lit "ollama not available."

/-- load_ollama_model: raises when the ollama package is absent, else
returns the stored model name. -/
def load_ollama_model (ollamaAvail : Bool) (name : Str) : Except Str Str :=
  if ollamaAvail then Except.ok name else Except.error msgOllamaMissing

/-- generate_with_ollama over the ollama.chat oracle: raises when the
package is absent, propagates a chat exception, strips the content. -/
def generate_with_ollama (ollamaAvail : Bool) (chat : Pipe) (prompt : Str) :
    Except Str Str :=
  if ollamaAvail then
    match chat prompt with
    | Except.ok content => Except.ok (stripPy content)
    | Except.error e => Except.error e
  else Except.error msgOllamaUnavailable

/-- generate_with_gpt4all over the model.generate oracle. -/
def generate_with_gpt4all (gen : Pipe) (prompt : Str) : Except Str Str :=
  match gen prompt with
  | Except.ok out => Except.ok (stripPy out)
  | Except.error e => Except.error e

/-- generate_with_flan over the transformers pipeline oracle. -/
def generate_with_flan (pipe : Pipe) (prompt : Str) : Except Str Str :=
  match pipe prompt with
  | Except.ok out => Except.ok (stripPy out)
  | Except.error e => Except.error e

/- ------------------------------------------------------------------
   Language utilities (src/app.py lines 240-253).
   ------------------------------------------------------------------ -/

/-- Membership of a character in the Bengali unicode block U+0980..U+09FF. -/
def inBengaliBlock (c : Char) : Bool :=
  (2432 ≤ c.toNat) && (c.toNat ≤ 2559)

/-- An ASCII letter (A-Z or a-z). -/
def isAsciiLetter (c : Char) : Bool :=
  ((65 ≤ c.toNat) && (c.toNat ≤ 90)) || ((97 ≤ c.toNat) && (c.toNat ≤ 122))

/-- The code-block fallback of looks_bangla: re.search over the Bengali
block, converted to bool. -/
def looksBanglaFallback (text : Str) : Bool := text.any inBengaliBlock

/-- looks_bangla over an optional langdetect oracle returning a language
tag or raising (none); a detector exception degrades to the fallback. -/
def looks_bangla (detector : Option (Str → Option Str)) (text : Str) : Bool :=
  match detector with
  | some d =>
    match d text with
    | some lang => lang = lit "bn"
    | none => looksBanglaFallback text
  | none => looksBanglaFallback text

/-- translate_bn_en_en_bn: dispatch on the direction string to one of the
two Marian pipelines; the pipeline call may raise. -/
def translate_bn_en_en_bn (text direction : Str) (bn_en en_bn : Pipe) :
    Except Str Str :=
  if direction = lit "bn2en" then bn_en text else en_bn text

/- ------------------------------------------------------------------
   Send handler (src/app.py lines 284-330).
   ------------------------------------------------------------------ -/

/-- One transcript entry, a dict with role and content strings. -/
structure ChatTurn where
  role : Str
  content : Str
deriving DecidableEq

/-- The except-branch message of the send handler. -/
def failureMsg (e : Str) : Str :=
  lit "Sorry, the local model backend failed: " ++ e ++
  lit "\n\nTry another backend in the sidebar, or install the missing package/model."

/-- The three sidebar backend choices. -/
inductive Backend where
  | ollamaB : Backend
  | gpt4allB : Backend
  | flanB : Backend
deriving DecidableEq

/-- Sidebar configuration consumed by the send handler. -/
structure Config where
  backend : Backend
  use_web : Bool
  enable_bn_translate : Bool

/-- The external world of one send: detector, translation loader, search
library availability and event stream, page fetcher, and the three
generation backends with their loaders. -/
structure Env where
  detector : Option (Str → Option Str)
  marianLoad : Except Str (Pipe × Pipe)
  ddgsAvail : Bool
  events : List DDGEvent
  fetch : Str → Str
  ollamaAvail : Bool
  ollamaChat : Pipe
  gpt4allLoad : Except Str Pipe
  flanLoad : Except Str Pipe

/-- Result of one send: the transcript afterwards, plus the message of an
exception that escaped the handler uncaught (none when the handler ran to
completion). -/
structure SendOutcome where
  history : List ChatTurn
  uncaught : Option Str
deriving DecidableEq

/-- The translation-pipes setup of the send handler: pipes are loaded only
when translation is enabled and the input is flagged; a loader exception
is caught by the local try (a warning) leaving the pipes unset. -/
def pipes_for (enable user_is_bn : Bool) (load : Except Str (Pipe × Pipe)) :
    Option (Pipe × Pipe) :=
  if enable && user_is_bn then
    match load with
    | Except.ok pq => some pq
    | Except.error _ => none
  else none

/-- The question handed to build_prompt: translated when translation is
enabled, the input is flagged and the bn-to-en pipe is set; the input
itself otherwise.  The pipeline call may raise. -/
def question_for_prompt (enable user_is_bn : Bool)
    (pipes : Option (Pipe × Pipe)) (text : Str) : Except Str Str :=
  match pipes with
  | some (bn_en, en_bn) =>
    if enable && user_is_bn then
      translate_bn_en_en_bn text (lit "bn2en") bn_en en_bn
    else Except.ok text
  | none => Except.ok text

/-- The back-translation step applied to the raw answer inside the try
block: a pipeline exception there is caught by the surrounding except and
becomes the failure message. -/
def answer_after_generation (enable user_is_bn : Bool)
    (pipes : Option (Pipe × Pipe)) (raw : Str) : Str :=
  match pipes with
  | some (bn_en, en_bn) =>
    if enable && user_is_bn then
      match translate_bn_en_en_bn raw (lit "en2bn") bn_en en_bn with
      | Except.ok t => t
      | Except.error e => failureMsg e
    else raw
  | none => raw

/-- The retrieval built by the send handler: context when web search is
enabled, empty string otherwise. -/
def retrieval_for (env : Env) (use_web : Bool) : Str :=
  if use_web then build_retrieval_context env.ddgsAvail env.events env.fetch
  else []

/-- The generation dispatch inside the try block: load the selected
backend (its loader may raise) and call its generator. -/
def gen_for (env : Env) (b : Backend) (prompt : Str) : Except Str Str :=
  match b with
  | Backend.ollamaB =>
    match load_ollama_model env.ollamaAvail (lit "mistral") with
    | Except.error e => Except.error e
    | Except.ok _ => generate_with_ollama env.ollamaAvail env.ollamaChat prompt
  | Backend.gpt4allB =>
    match env.gpt4allLoad with
    | Except.error e => Except.error e
    | Except.ok gen => generate_with_gpt4all gen prompt
  | Backend.flanB =>
    match env.flanLoad with
    | Except.error e => Except.error e
    | Except.ok pipe => generate_with_flan pipe prompt

/-- The send handler for a pressed send button: no-op on blank input; else
append the user turn, set up translation, build retrieval and prompt, run
the backend inside try/except, and append the assistant turn.  The
forward-translation call sits before the try block, so its exception
escapes the handler with only the user turn appended. -/
def send_handler (env : Env) (cfg : Config) (history : List ChatTurn)
    (user_text : Str) : SendOutcome :=
  if stripPy user_text = [] then { history := history, uncaught := none }
  else
    let hist1 := history ++ [{ role := lit "user", content := user_text }]
    let user_is_bn := looks_bangla env.detector user_text
    let pipes := pipes_for cfg.enable_bn_translate user_is_bn env.marianLoad
    let retrieval := retrieval_for env cfg.use_web
    match question_for_prompt cfg.enable_bn_translate user_is_bn pipes user_text with
    | Except.error e => { history := hist1, uncaught := some e }
    | Except.ok question =>
      let prompt := build_prompt question retrieval
      match gen_for env cfg.backend prompt with
      | Except.error e =>
        { history := hist1 ++ [{ role := lit "assistant", content := failureMsg e }],
          uncaught := none }
      | Except.ok raw =>
        { history := hist1 ++
            [{ role := lit "assistant",
               content := answer_after_generation cfg.enable_bn_translate user_is_bn pipes raw }],
          uncaught := none }

/- ------------------------------------------------------------------
   Concrete fixtures used by witnesses and counterexamples.
   ------------------------------------------------------------------ -/

/-- A raw provider record with a URL. -/
def hitA : RawHit :=
  { title := some (lit "Paris"), href := some (lit "u1"),
    body := some (lit "Paris is the capital"), source := some [] }

/-- A second raw provider record, used by the search counterexample. -/
def hitB : RawHit :=
  { title := some (lit "t2"), href := some (lit "u2"),
    body := some (lit "s2"), source := some [] }

/-- A raw provider record whose URL is the empty string. -/
def hitNoUrl : RawHit :=
  { title := some (lit "t"), href := some [], body := some (lit "s"),
    source := none }

/-- A search result with an empty URL. -/
def resNoUrl : SearchResult := mkResult hitNoUrl

/-- A search result with a URL. -/
def resA : SearchResult := mkResult hitA

/-- A fetcher for which every page fetch yields empty text. -/
def emptyFetch : Str → Str := fun _ => []

/-- A fetcher returning a fixed non-empty page text. -/
def constFetch : Str → Str := fun _ => lit "x"

/-- An extractor oracle that succeeds with a fixed text. -/
def exSome : Str → Option Str := fun _ => some (lit "a  b")

/-- An extractor oracle that raises. -/
def exNone : Str → Option Str := fun _ => none

/-- An identity translation pipeline. -/
def pipeId : Pipe := fun t => Except.ok t

/-- A translation pipeline that raises. -/
def pipeBoom : Pipe := fun _ => Except.error (lit "boom")

/-- A translation pipeline that marks its output. -/
def pipeExcl : Pipe := fun t => Except.ok (t ++ lit "!")

/-- A baseline environment: nothing external is available. -/
def envBase : Env :=
  { detector := none, marianLoad := Except.error (lit "missing"),
    ddgsAvail := false, events := [], fetch := emptyFetch,
    ollamaAvail := false, ollamaChat := pipeBoom,
    gpt4allLoad := Except.error (lit "no gpt4all"),
    flanLoad := Except.error (lit "no transformers") }

/-- A baseline configuration: ollama backend, no web, no translation. -/
def cfgBase : Config :=
  { backend := Backend.ollamaB, use_web := false, enable_bn_translate := false }

/-- A one-character Bangla input. -/
def bnText : Str := lit "ক"

/-- Environment in which the Marian pipelines load but the bn-to-en
pipeline raises when called. -/
def envC9 : Env :=
  { envBase with marianLoad := Except.ok (pipeBoom, pipeId) }

/-- Configuration with translation enabled. -/
def cfgC9 : Config := { cfgBase with enable_bn_translate := true }

/- ------------------------------------------------------------------
   Helper lemmas.
   ------------------------------------------------------------------ -/

theorem headNotWs_collapseWsAux_true : ∀ s : Str, headNotWs (collapseWsAux true s) = true
  | [] => rfl
  | c :: rest => by
    by_cases h : isPyWs c = true
    · simpa [collapseWsAux, h] using headNotWs_collapseWsAux_true rest
    · simp [collapseWsAux, h, headNotWs]

theorem noWsRun_cons (a : Char) (l : Str)
    (h1 : isPyWs a = false ∨ headNotWs l = true) (h2 : noWsRun l = true) :
    noWsRun (a :: l) = true := by
  cases l with
  | nil => rfl
  | cons b t =>
    have hb : isPyWs a = false ∨ isPyWs b = false := by
      rcases h1 with h | h
      · exact Or.inl h
      · simp [headNotWs] at h
        exact Or.inr (by simpa using h)
    simp only [noWsRun, h2, Bool.and_true]
    rcases hb with h | h <;> simp [h]

theorem noWsRun_collapseWsAux : ∀ (s : Str) (prev : Bool), noWsRun (collapseWsAux prev s) = true
  | [], _ => rfl
  | c :: rest, prev => by
    by_cases h : isPyWs c = true
    · cases prev with
      | true => simpa [collapseWsAux, h] using noWsRun_collapseWsAux rest true
      | false =>
        simp only [collapseWsAux, h, if_true]
        exact noWsRun_cons _ _ (Or.inr (headNotWs_collapseWsAux_true rest))
          (noWsRun_collapseWsAux rest true)
    · simp only [collapseWsAux, h, if_false]
      exact noWsRun_cons _ _ (Or.inl (by simpa using h))
        (noWsRun_collapseWsAux rest false)

theorem noWsRun_collapseWs (s : Str) : noWsRun (collapseWs s) = true :=
  noWsRun_collapseWsAux s false

theorem fetchLoop_eq_nil_of_fetch_empty (fetch : Str → Str)
    (hf : ∀ u, fetch u = []) : ∀ hits, fetchLoop fetch hits = []
  | [] => rfl
  | h :: rest => by
    by_cases hh : h.href = []
    · simp [fetchLoop, hh, fetchLoop_eq_nil_of_fetch_empty fetch hf rest]
    · simp [fetchLoop, hh, hf, fetchLoop_eq_nil_of_fetch_empty fetch hf rest]

theorem fetchLoop_eq_nil_of_href_empty (fetch : Str → Str) :
    ∀ hits : List SearchResult, (∀ h ∈ hits, h.href = []) →
      fetchLoop fetch hits = []
  | [], _ => rfl
  | h :: rest, hall => by
    have hh : h.href = [] := hall h (by simp)
    have hrest : ∀ x ∈ rest, x.href = [] := fun x hx => hall x (by simp [hx])
    simp [fetchLoop, hh, fetchLoop_eq_nil_of_href_empty fetch rest hrest]

theorem ddgLoop_eq_map : ∀ events : List DDGEvent,
    ddgLoop events = (itemsBeforeRaise events).map mkResult
  | [] => rfl
  | DDGEvent.item r :: rest => by
    simp [ddgLoop, itemsBeforeRaise, ddgLoop_eq_map rest]
  | DDGEvent.raise :: _ => rfl

/- ------------------------------------------------------------------
   Claim theorems.
   ------------------------------------------------------------------ -/

/-- Claim C1: when the provider returned at least one SearchResult and
every page fetch yields empty text, build_retrieval_context falls back to
snippet-only chunks — exactly one fallbackChunk per returned result, in
the provider-returned order (the chunk list is the map of fallbackChunk
over the hit list). -/
theorem c1_snippet_fallback (ddgsAvail : Bool) (events : List DDGEvent)
    (fetch : Str → Str) (hhits : ddg_search ddgsAvail events ≠ [])
    (hfetch : ∀ u, fetch u = []) :
    build_retrieval_context ddgsAvail events fetch =
      joinBlank ((ddg_search ddgsAvail events).map fallbackChunk) ∧
    ((ddg_search ddgsAvail events).map fallbackChunk).length =
      (ddg_search ddgsAvail events).length := by
  constructor
  · simp [build_retrieval_context, fetchLoop_eq_nil_of_fetch_empty fetch hfetch, hhits]
  · simp

/-- Witness for C1 at one concrete result and an all-empty fetcher. -/
theorem c1_snippet_fallback_witness :
    build_retrieval_context true [DDGEvent.item hitA] emptyFetch =
      joinBlank ((ddg_search true [DDGEvent.item hitA]).map fallbackChunk) ∧
    ((ddg_search true [DDGEvent.item hitA]).map fallbackChunk).length =
      (ddg_search true [DDGEvent.item hitA]).length :=
  c1_snippet_fallback true [DDGEvent.item hitA] emptyFetch (by decide) (fun _ => rfl)

/-- Claim C2: when the provider returns no results the retrieval context
is the empty string, and build_prompt on the empty context emits the
no-external-information notice in place of a context block. -/
theorem c2_empty_results (ddgsAvail : Bool) (events : List DDGEvent)
    (fetch : Str → Str) (q : Str) (h : ddg_search ddgsAvail events = []) :
    build_retrieval_context ddgsAvail events fetch = [] ∧
    build_prompt q (build_retrieval_context ddgsAvail events fetch) =
      sysPreamble ++ lit "\n\n" ++ noticeLine ++ lit "\nUser question:\n" ++ q ++
        lit "\n\nAssistant answer:" := by
  have hctx : build_retrieval_context ddgsAvail events fetch = [] := by
    simp [build_retrieval_context, h, fetchLoop, joinBlank, List.intercalate]
  refine ⟨hctx, ?_⟩
  rw [hctx]
  simp [build_prompt, contextBlock]

/-- Witness for C2 with the provider library unavailable. -/
theorem c2_empty_results_witness :
    build_retrieval_context false [] emptyFetch = [] ∧
    build_prompt (lit "hi") (build_retrieval_context false [] emptyFetch) =
      sysPreamble ++ lit "\n\n" ++ noticeLine ++ lit "\nUser question:\n" ++
        lit "hi" ++ lit "\n\nAssistant answer:" :=
  c2_empty_results false [] emptyFetch (lit "hi") rfl

/-- Claim C3: fetch_page_text never returns more than 8000 characters (in
particular on every successful fetch), and pageExcerptOf — the excerpt
embedded by excerptChunk into every retrieval chunk — never exceeds 1200
characters. -/
theorem c3_caps :
    (∀ (extract : Str → Option Str) (resp : HttpResult),
        (fetch_page_text extract resp).length ≤ 8000) ∧
    (∀ page_text : Str, (pageExcerptOf page_text).length ≤ 1200) := by
  constructor
  · intro extract resp
    cases resp with
    | raise => simp [fetch_page_text]
    | success status body =>
      by_cases h : status = 200
      · subst h
        cases hx : extract body with
        | none => simp [fetch_page_text, hx]
        | some text =>
          simp [fetch_page_text, hx, List.length_take]
      · simp [fetch_page_text, h]
  · intro page_text
    simp [pageExcerptOf, List.length_take]

/-- Claim C6: fetch_page_text is a total function (never raises); a
network exception, a non-200 status, or an extractor exception each yield
the empty string; on success the result is the whitespace-collapsed,
stripped text truncated to 8000 characters, and the collapsed text has no
whitespace run of length two or more. -/
theorem c6_fetch_soft_fail :
    (∀ extract : Str → Option Str, fetch_page_text extract HttpResult.raise = []) ∧
    (∀ (extract : Str → Option Str) (status : Nat) (body : Str), status ≠ 200 →
        fetch_page_text extract (HttpResult.success status body) = []) ∧
    (∀ (extract : Str → Option Str) (body : Str), extract body = none →
        fetch_page_text extract (HttpResult.success 200 body) = []) ∧
    (∀ (extract : Str → Option Str) (body text : Str), extract body = some text →
        fetch_page_text extract (HttpResult.success 200 body) =
          List.take 8000 (stripPy (collapseWs text)) ∧
        noWsRun (collapseWs text) = true) := by
  refine ⟨fun _ => rfl, ?_, ?_, ?_⟩
  · intro extract status body h
    simp [fetch_page_text, h]
  · intro extract body h
    simp [fetch_page_text, h]
  · intro extract body text h
    exact ⟨by simp [fetch_page_text, h], noWsRun_collapseWs text⟩

/-- Witness for C6 at concrete responses and extractors. -/
theorem c6_fetch_soft_fail_witness :
    fetch_page_text exSome HttpResult.raise = [] ∧
    fetch_page_text exSome (HttpResult.success 404 (lit "x")) = [] ∧
    fetch_page_text exNone (HttpResult.success 200 (lit "x")) = [] ∧
    (fetch_page_text exSome (HttpResult.success 200 (lit "x")) =
        List.take 8000 (stripPy (collapseWs (lit "a  b"))) ∧
      noWsRun (collapseWs (lit "a  b")) = true) :=
  ⟨c6_fetch_soft_fail.1 exSome,
   c6_fetch_soft_fail.2.1 exSome 404 (lit "x") (by decide),
   c6_fetch_soft_fail.2.2.1 exNone (lit "x") rfl,
   c6_fetch_soft_fail.2.2.2 exSome (lit "x") (lit "a  b") rfl⟩

/-- Claim C8: the code-block fallback of looks_bangla flags every string
containing a character of the Bengali block U+0980..U+09FF and flags no
string consisting only of ASCII letters. -/
theorem c8_bengali_block :
    (∀ text : Str, (∃ c ∈ text, inBengaliBlock c = true) →
        looksBanglaFallback text = true) ∧
    (∀ text : Str, (∀ c ∈ text, isAsciiLetter c = true) →
        looksBanglaFallback text = false) := by
  constructor
  · intro text h
    simpa [looksBanglaFallback, List.any_eq_true] using h
  · intro text h
    cases hany : text.any inBengaliBlock with
    | false => simpa [looksBanglaFallback] using hany
    | true =>
      exfalso
      rw [List.any_eq_true] at hany
      obtain ⟨c, hc, hb⟩ := hany
      have ha := h c hc
      simp [inBengaliBlock] at hb
      simp [isAsciiLetter] at ha
      omega

/-- Witness for C8 at a Bangla character and an ASCII string. -/
theorem c8_bengali_block_witness :
    looksBanglaFallback bnText = true ∧ looksBanglaFallback (lit "ab") = false :=
  ⟨c8_bengali_block.1 bnText (by decide), c8_bengali_block.2 (lit "ab") (by decide)⟩

/-- Claim C10: a result with an empty URL is skipped by the fetch loop and
contributes no excerpt chunk; and when every returned result has an empty
URL (and at least one exists), the assembled context is the snippet-only
fallback for all of them, for every fetcher (so no fetch can influence the
outcome). -/
theorem c10_empty_url_handling :
    (∀ (fetch : Str → Str) (h : SearchResult) (rest : List SearchResult),
        h.href = [] → fetchLoop fetch (h :: rest) = fetchLoop fetch rest) ∧
    (∀ (ddgsAvail : Bool) (events : List DDGEvent) (fetch : Str → Str),
        (∀ h ∈ ddg_search ddgsAvail events, h.href = []) →
        ddg_search ddgsAvail events ≠ [] →
        build_retrieval_context ddgsAvail events fetch =
          joinBlank ((ddg_search ddgsAvail events).map fallbackChunk)) := by
  constructor
  · intro fetch h rest hh
    simp [fetchLoop, hh]
  · intro ddgsAvail events fetch hall hne
    simp [build_retrieval_context, fetchLoop_eq_nil_of_href_empty fetch _ hall, hne]

/-- Witness for C10 at a concrete empty-URL result and a fetcher that
always returns text. -/
theorem c10_empty_url_handling_witness :
    fetchLoop constFetch (resNoUrl :: [resA]) = fetchLoop constFetch [resA] ∧
    build_retrieval_context true [DDGEvent.item hitNoUrl] constFetch =
      joinBlank ((ddg_search true [DDGEvent.item hitNoUrl]).map fallbackChunk) :=
  ⟨c10_empty_url_handling.1 constFetch resNoUrl [resA] (by decide),
   c10_empty_url_handling.2 true [DDGEvent.item hitNoUrl] constFetch
     (by decide) (by decide)⟩

/-- Counterexample to Claim C5 as stated: the provider yields one record
and then raises during the same search call, yet ddg_search returns the
one accumulated result instead of the empty list (the bare except keeps
the partial list). -/
theorem c5_counterexample :
    DDGEvent.raise ∈ ([DDGEvent.item hitB, DDGEvent.raise] : List DDGEvent) ∧
    ddg_search true [DDGEvent.item hitB, DDGEvent.raise] ≠ [] := by decide

/-- Amended C5: a provider failure never propagates; ddg_search returns
exactly the results accumulated before the first raise (empty when the
failure precedes any result), and the empty list when the search library
is unavailable. -/
theorem c5_amended :
    (∀ events : List DDGEvent,
        ddg_search true events = (itemsBeforeRaise events).map mkResult) ∧
    (∀ events : List DDGEvent, ddg_search false events = []) :=
  ⟨fun events => by simp [ddg_search, ddgLoop_eq_map], fun _ => rfl⟩

/-- Counterexample to Claim C4 as stated: with the ollama package missing,
generate_with_ollama raises (propagates an error to its caller) instead of
returning any result string, uniform or otherwise. -/
theorem c4_counterexample :
    generate_with_ollama false pipeId (lit "hi") = Except.error msgOllamaUnavailable := rfl

/-- Amended C4: backend construction and runtime errors propagate out of
the three generator functions and are caught once by the send handler's
try/except, which renders the single failure message as the assistant
turn; no backend error escapes the handler. -/
theorem c4_boundary (env : Env) (cfg : Config) (history : List ChatTurn)
    (user_text q e : Str) (hblank : ¬ stripPy user_text = [])
    (hq : question_for_prompt cfg.enable_bn_translate
        (looks_bangla env.detector user_text)
        (pipes_for cfg.enable_bn_translate (looks_bangla env.detector user_text)
          env.marianLoad) user_text = Except.ok q)
    (hgen : gen_for env cfg.backend
        (build_prompt q (retrieval_for env cfg.use_web)) = Except.error e) :
    send_handler env cfg history user_text =
      { history := history ++
          [{ role := lit "user", content := user_text },
           { role := lit "assistant", content := failureMsg e }],
        uncaught := none } := by
  unfold send_handler
  rw [if_neg hblank]
  simp [hq, hgen]

/-- Witness for the amended C4: ollama backend selected and unavailable;
the transcript gains the user turn and one assistant turn carrying the
failure message. -/
theorem c4_boundary_witness :
    send_handler envBase cfgBase [] (lit "hi") =
      { history := [{ role := lit "user", content := lit "hi" },
                    { role := lit "assistant", content := failureMsg msgOllamaMissing }],
        uncaught := none } :=
  c4_boundary envBase cfgBase [] (lit "hi") (lit "hi") msgOllamaMissing
    (by decide) rfl rfl

/-- Claim C7: translate_bn_en_en_bn delegates to the bn-to-en pipeline for
direction bn2en and to the en-to-bn pipeline for every other direction;
and at both orchestration sites, when no translation backend is available
(no pipes), the text passes through unchanged in both directions. -/
theorem c7_translate_identity_fallback :
    (∀ (t : Str) (b e : Pipe),
        translate_bn_en_en_bn t (lit "bn2en") b e = b t) ∧
    (∀ (t d : Str) (b e : Pipe), d ≠ lit "bn2en" →
        translate_bn_en_en_bn t d b e = e t) ∧
    (∀ (enable bn : Bool) (t : Str),
        question_for_prompt enable bn none t = Except.ok t) ∧
    (∀ (enable bn : Bool) (r : Str),
        answer_after_generation enable bn none r = r) :=
  ⟨fun t b e => by simp [translate_bn_en_en_bn],
   fun t d b e hd => by simp [translate_bn_en_en_bn, hd],
   fun _ _ _ => rfl,
   fun _ _ _ => rfl⟩

/-- Witness for C7 at concrete pipelines and directions. -/
theorem c7_translate_identity_fallback_witness :
    translate_bn_en_en_bn (lit "x") (lit "bn2en") pipeExcl pipeId = pipeExcl (lit "x") ∧
    translate_bn_en_en_bn (lit "x") (lit "en2bn") pipeExcl pipeId = pipeId (lit "x") ∧
    question_for_prompt true true none (lit "x") = Except.ok (lit "x") ∧
    answer_after_generation true true none (lit "x") = lit "x" :=
  ⟨c7_translate_identity_fallback.1 (lit "x") pipeExcl pipeId,
   c7_translate_identity_fallback.2.1 (lit "x") (lit "en2bn") pipeExcl pipeId (by decide),
   c7_translate_identity_fallback.2.2.1 true true (lit "x"),
   c7_translate_identity_fallback.2.2.2 true true (lit "x")⟩

/-- Evaluation of Claim C9 at its failing input: Bangla input, translation
enabled, Marian pipelines loaded, bn-to-en call raising.  The forward
translation sits before the send handler's try/except, so the exception
escapes uncaught and the transcript gains only the user turn — not the two
turns the claim promises. -/
theorem c9_translation_crash :
    send_handler envC9 cfgC9 [] bnText =
      { history := [{ role := lit "user", content := bnText }],
        uncaught := some (lit "boom") } := rfl

end Erik
